import Mathlib

/-!
Verification of the Reporting Service facade (`ReportingServiceImpl` in
`net/reporting/reporting_service.cc`).

The service is embedded shallowly: its four boolean/backlog fields become a
`ServiceState` record, and every call it makes into its collaborators (the
`ReportingCache`, the `ReportingHeaderParser`, the `ReportingDeliveryAgent`,
the `ReportingBrowsingDataRemover`, the persistent store and the context)
is recorded in an append-only `effects` log, since those collaborators are
external to the facade.  Each public method of the service becomes a function
from `ServiceState` to `ServiceState`.

External collaborators that the facade's control flow depends on (`GURL`,
`url::Origin`, `base::JSONReader`, `NetworkIsolationKey`,
`base::UnguessableToken`) are modelled from the specification's description
of them; each such definition carries a doc comment saying so.
-/

namespace Reporting

/-- Modelled from the spec: a URL (`GURL`) as an external collaborator.  Only
the components the facade's specification mentions are carried: validity,
scheme, userinfo (username/password), host, port, path, query and the ref
fragment. -/
structure GURL where
  is_valid : Bool
  scheme : String
  username : String
  password : String
  host : String
  port : String
  path : String
  query : String
  ref : String
deriving DecidableEq, Repr

/-- Modelled from the spec: `GURL::GetAsReferrer`.  The spec says the service
"Sanitizes url to its referrer form (strip userinfo/fragment; reject if not
valid after stripping)", and the call site in `reporting_service.cc` documents
it as "Strip username, password, and ref fragment from the URL."  All other
components (scheme, host, port, path, query) and validity are unchanged. -/
def GURL.GetAsReferrer (g : GURL) : GURL :=
  { g with username := "", password := "", ref := "" }

/-- Modelled from the spec: a web origin is the scheme+host+port of a URL. -/
structure Origin where
  scheme : String
  host : String
  port : String
deriving DecidableEq, Repr

/-- Modelled from the spec: `url::Origin::Create` keeps scheme, host, port. -/
def Origin.create (g : GURL) : Origin :=
  ⟨g.scheme, g.host, g.port⟩

/-- Modelled from the spec: the network partition key is an "opaque
equality-comparable tag"; the service only ever compares it against the
empty key or passes it through, so an optional pair of site strings
suffices. -/
structure NetworkIsolationKey where
  sites : Option (String × String)
deriving DecidableEq, Repr

/-- The empty `NetworkIsolationKey`, `empty_nik_` in the source. -/
def empty_nik : NetworkIsolationKey := ⟨none⟩

/-- Modelled from the spec: a reporting source is an "opaque 128-bit
identifier" (`base::UnguessableToken`); the all-zero value is the empty
token. -/
structure UnguessableToken where
  value : Nat
deriving DecidableEq, Repr

/-- Modelled from the spec: the empty token is the zero token. -/
def UnguessableToken.is_empty (t : UnguessableToken) : Bool :=
  t.value == 0

/-- Modelled from the spec: `IsolationInfo` is opaque to the facade except
that it carries the network isolation key the service reads from it. -/
structure IsolationInfo where
  network_isolation_key : NetworkIsolationKey
deriving DecidableEq, Repr

/-- Modelled from the spec: opaque endpoint records loaded from the Store. -/
structure ReportingEndpoint where
  data : String
deriving DecidableEq, Repr

/-- Modelled from the spec: opaque endpoint-group records loaded from the
Store. -/
structure CachedReportingEndpointGroup where
  data : String
deriving DecidableEq, Repr

/-- Modelled from the spec: a structured JSON value (`base::Value`). -/
inductive JsonValue where
  | null : JsonValue
  | bool : Bool → JsonValue
  | num : Int → JsonValue
  | str : String → JsonValue
  | list : List JsonValue → JsonValue
  | dict : List (String × JsonValue) → JsonValue
deriving Repr

/-- JSON insignificant whitespace. -/
def isJsonWs (c : Char) : Bool :=
  c == ' ' || c == '\t' || c == '\n' || c == '\r'

/-- Drop leading JSON whitespace. -/
def skipWs : List Char → List Char
  | [] => []
  | c :: rest => if isJsonWs c then skipWs rest else c :: rest

/-- Longest leading run of decimal digits, and the remainder. -/
def takeDigits : List Char → (List Char × List Char)
  | [] => ([], [])
  | c :: rest =>
    if c.isDigit then
      let p := takeDigits rest
      (c :: p.1, p.2)
    else ([], c :: rest)

/-- Value of a digit run. -/
def digitsToNat (ds : List Char) : Nat :=
  ds.foldl (fun a c => 10 * a + (c.toNat - 48)) 0

/-- Parse a JSON number (integer form). -/
def parseNumber : List Char → Option (JsonValue × List Char)
  | '-' :: rest =>
    match takeDigits rest with
    | ([], _) => none
    | (ds, rest') => some (.num (-(digitsToNat ds : Int)), rest')
  | input =>
    match takeDigits input with
    | ([], _) => none
    | (ds, rest') => some (.num (digitsToNat ds), rest')

/-- Body of a JSON string after the opening quote; escapes are not modelled
(the spec treats JSON parsing as an external collaborator and no claim
depends on escape handling). -/
def takeStringChars : List Char → Option (List Char × List Char)
  | [] => none
  | c :: rest =>
    if c == '"' then some ([], rest)
    else if c == '\\' then none
    else
      match takeStringChars rest with
      | none => none
      | some (s, rest') => some (c :: s, rest')

mutual

/-- Modelled from the spec: recursive-descent JSON value at nesting `depth`,
failing when a container would exceed `maxDepth` ("max JSON depth 5": a JSON
document parses exactly when its container nesting depth is at most the
maximum).  `fuel` only bounds recursion; `ReadDeprecated` supplies enough. -/
def parseValue : Nat → Nat → Nat → List Char → Option (JsonValue × List Char)
  | 0, _, _, _ => none
  | fuel + 1, depth, maxDepth, input =>
    match skipWs input with
    | 'n' :: 'u' :: 'l' :: 'l' :: rest => some (.null, rest)
    | 't' :: 'r' :: 'u' :: 'e' :: rest => some (.bool true, rest)
    | 'f' :: 'a' :: 'l' :: 's' :: 'e' :: rest => some (.bool false, rest)
    | '"' :: rest =>
      match takeStringChars rest with
      | none => none
      | some (s, rest') => some (.str (String.mk s), rest')
    | '[' :: rest =>
      if maxDepth < depth + 1 then none
      else parseListBody fuel (depth + 1) maxDepth rest
    | '{' :: rest =>
      if maxDepth < depth + 1 then none
      else parseDictBody fuel (depth + 1) maxDepth rest
    | other => parseNumber other
  termination_by structural fuel _ _ _ => fuel

/-- List body after `[`, at the depth of the list itself. -/
def parseListBody : Nat → Nat → Nat → List Char → Option (JsonValue × List Char)
  | 0, _, _, _ => none
  | fuel + 1, depth, maxDepth, input =>
    match skipWs input with
    | ']' :: rest => some (.list [], rest)
    | other =>
      match parseValue fuel depth maxDepth other with
      | none => none
      | some (v, rest) =>
        match parseListTail fuel depth maxDepth rest with
        | none => none
        | some (vs, rest') => some (.list (v :: vs), rest')
  termination_by structural fuel _ _ _ => fuel

/-- Remaining list elements: `]` or `, value ...`. -/
def parseListTail : Nat → Nat → Nat → List Char → Option (List JsonValue × List Char)
  | 0, _, _, _ => none
  | fuel + 1, depth, maxDepth, input =>
    match skipWs input with
    | ']' :: rest => some ([], rest)
    | ',' :: rest =>
      match parseValue fuel depth maxDepth rest with
      | none => none
      | some (v, rest') =>
        match parseListTail fuel depth maxDepth rest' with
        | none => none
        | some (vs, rest'') => some (v :: vs, rest'')
    | _ => none
  termination_by structural fuel _ _ _ => fuel

/-- Dictionary body after the opening brace. -/
def parseDictBody : Nat → Nat → Nat → List Char → Option (JsonValue × List Char)
  | 0, _, _, _ => none
  | fuel + 1, depth, maxDepth, input =>
    match skipWs input with
    | '}' :: rest => some (.dict [], rest)
    | other =>
      match parseDictEntry fuel depth maxDepth other with
      | none => none
      | some (kv, rest) =>
        match parseDictTail fuel depth maxDepth rest with
        | none => none
        | some (kvs, rest') => some (.dict (kv :: kvs), rest')
  termination_by structural fuel _ _ _ => fuel

/-- One `"key" : value` entry. -/
def parseDictEntry : Nat → Nat → Nat → List Char → Option ((String × JsonValue) × List Char)
  | 0, _, _, _ => none
  | fuel + 1, depth, maxDepth, input =>
    match skipWs input with
    | '"' :: rest =>
      match takeStringChars rest with
      | none => none
      | some (k, rest') =>
        match skipWs rest' with
        | ':' :: rest'' =>
          match parseValue fuel depth maxDepth rest'' with
          | none => none
          | some (v, rest3) => some ((String.mk k, v), rest3)
        | _ => none
    | _ => none
  termination_by structural fuel _ _ _ => fuel

/-- Remaining dictionary entries: closing brace or `, entry ...`. -/
def parseDictTail : Nat → Nat → Nat → List Char → Option (List (String × JsonValue) × List Char)
  | 0, _, _, _ => none
  | fuel + 1, depth, maxDepth, input =>
    match skipWs input with
    | '}' :: rest => some ([], rest)
    | ',' :: rest =>
      match parseDictEntry fuel depth maxDepth rest with
      | none => none
      | some (kv, rest') =>
        match parseDictTail fuel depth maxDepth rest' with
        | none => none
        | some (kvs, rest'') => some (kv :: kvs, rest'')
    | _ => none
  termination_by structural fuel _ _ _ => fuel

end

/-- Modelled from the spec: `base::JSONReader::ReadDeprecated(input,
base::JSON_PARSE_RFC, maxDepth)` — parse the whole input as one JSON value
with container nesting bounded by `maxDepth`; any failure yields `none`
(the caller sees a null pointer). -/
def ReadDeprecated (input : List Char) (maxDepth : Nat) : Option JsonValue :=
  match parseValue (2 * input.length + 2) 0 maxDepth input with
  | none => none
  | some (v, rest) => if skipWs rest = [] then some v else none

/-- `kMaxJsonSize` from `reporting_service.cc`: `16 * 1024`. -/
def kMaxJsonSize : Nat := 16 * 1024

/-- `kMaxJsonDepth` from `reporting_service.cc`. -/
def kMaxJsonDepth : Nat := 5

/-- The immutable surroundings of one `ReportingServiceImpl` instance: what
it reads from its `ReportingContext` (`IsClientDataPersisted`, the delegate
predicate `CanQueueReport`) and the feature flag captured at construction in
`respect_network_isolation_key_`. -/
structure Config where
  IsClientDataPersisted : Bool
  CanQueueReport : Origin → Bool
  respect_network_isolation_key : Bool

/-- `ReportingServiceImpl::FixupNetworkIsolationKey`: returns either the
inbound key or the empty key, based on `respect_network_isolation_key_`. -/
def FixupNetworkIsolationKey (cfg : Config) (network_isolation_key : NetworkIsolationKey) :
    NetworkIsolationKey :=
  if cfg.respect_network_isolation_key then network_isolation_key else empty_nik

/-- One deferred operation: the closures `base::BindOnce(&Do..., ...)` that
`DoOrBacklogTask` receives, one constructor per `Do...` private method. -/
inductive Task where
  | doQueueReport (reporting_source : Option UnguessableToken)
      (network_isolation_key : NetworkIsolationKey) (sanitized_url : GURL)
      (user_agent group type : String) (body : JsonValue) (depth : Nat)
      (queued_ticks : Nat)
  | doProcessReportToHeader (network_isolation_key : NetworkIsolationKey)
      (url : GURL) (header_value : JsonValue)
  | doSetDocumentReportingEndpoints (reporting_source : UnguessableToken)
      (isolation_info : IsolationInfo) (network_isolation_key : NetworkIsolationKey)
      (origin : Origin) (endpoints : List (String × String))
  | doRemoveBrowsingData (data_type_mask : Nat) (origin_filter : GURL → Bool)
  | doRemoveAllBrowsingData (data_type_mask : Nat)

/-- One call the facade makes into a collaborator, recorded in order:
`store()->LoadReportingClients`, `cache()->AddReport`,
`ReportingHeaderParser::ParseReportToHeader`,
`ReportingHeaderParser::ProcessParsedReportingEndpointsHeader`,
`ReportingBrowsingDataRemover::{RemoveBrowsingData,RemoveAllBrowsingData}`,
`cache()->AddClientsLoadedFromStore`,
`delivery_agent()->SendReportsForSource`, `cache()->SetExpiredSource`,
`context_->OnShutdown`. -/
inductive Effect where
  | loadReportingClients
  | addReport (reporting_source : Option UnguessableToken)
      (network_isolation_key : NetworkIsolationKey) (sanitized_url : GURL)
      (user_agent group type : String) (body : JsonValue) (depth : Nat)
      (queued_ticks : Nat) (attempts : Nat)
  | parseReportToHeader (network_isolation_key : NetworkIsolationKey)
      (url : GURL) (header_value : JsonValue)
  | processParsedReportingEndpointsHeader (reporting_source : UnguessableToken)
      (isolation_info : IsolationInfo) (network_isolation_key : NetworkIsolationKey)
      (origin : Origin) (endpoints : List (String × String))
  | removeBrowsingData (data_type_mask : Nat) (origin_filter : GURL → Bool)
  | removeAllBrowsingData (data_type_mask : Nat)
  | addClientsLoadedFromStore (loaded_endpoints : List ReportingEndpoint)
      (loaded_endpoint_groups : List CachedReportingEndpointGroup)
  | sendReportsForSource (reporting_source : UnguessableToken)
  | setExpiredSource (reporting_source : UnguessableToken)
  | contextOnShutdown

/-- The mutable state of one `ReportingServiceImpl`: its four fields
`shut_down_`, `started_loading_from_store_`, `initialized_`,
`task_backlog_`, plus the log of calls made into collaborators. -/
structure ServiceState where
  shut_down : Bool
  started_loading_from_store : Bool
  initialized : Bool
  task_backlog : List Task
  effects : List Effect

/-- The constructor `ReportingServiceImpl(context)`: all flags start false;
`initialized_` is set to true when `!context_->IsClientDataPersisted()`. -/
def create (cfg : Config) : ServiceState :=
  { shut_down := false
    started_loading_from_store := false
    initialized := !cfg.IsClientDataPersisted
    task_backlog := []
    effects := [] }

/-- Running one deferred task: each `Do...` method checks
`DCHECK(initialized_)` (debug-only) and makes exactly one call into the
cache, the header parser or the browsing-data remover. -/
def runTask (t : Task) (st : ServiceState) : ServiceState :=
  match t with
  | .doQueueReport rs nik sanitized_url ua group type body depth queued_ticks =>
    { st with effects := st.effects ++
        [.addReport rs nik sanitized_url ua group type body depth queued_ticks 0] }
  | .doProcessReportToHeader nik url header_value =>
    { st with effects := st.effects ++ [.parseReportToHeader nik url header_value] }
  | .doSetDocumentReportingEndpoints rs isolation_info nik origin endpoints =>
    { st with effects := st.effects ++
        [.processParsedReportingEndpointsHeader rs isolation_info nik origin endpoints] }
  | .doRemoveBrowsingData mask origin_filter =>
    { st with effects := st.effects ++ [.removeBrowsingData mask origin_filter] }
  | .doRemoveAllBrowsingData mask =>
    { st with effects := st.effects ++ [.removeAllBrowsingData mask] }

/-- The one collaborator call a task makes when run. -/
def taskEffect : Task → Effect
  | .doQueueReport rs nik sanitized_url ua group type body depth queued_ticks =>
    .addReport rs nik sanitized_url ua group type body depth queued_ticks 0
  | .doProcessReportToHeader nik url header_value =>
    .parseReportToHeader nik url header_value
  | .doSetDocumentReportingEndpoints rs isolation_info nik origin endpoints =>
    .processParsedReportingEndpointsHeader rs isolation_info nik origin endpoints
  | .doRemoveBrowsingData mask origin_filter => .removeBrowsingData mask origin_filter
  | .doRemoveAllBrowsingData mask => .removeAllBrowsingData mask

/-- Whether an effect is one a backlogged task produces when executed (as
opposed to the store load, the loaded-clients install, the
source-flush/expiry pair, or the shutdown propagation). -/
def isTaskEffect : Effect → Bool
  | .addReport .. => true
  | .parseReportToHeader .. => true
  | .processParsedReportingEndpointsHeader .. => true
  | .removeBrowsingData .. => true
  | .removeAllBrowsingData .. => true
  | _ => false

/-- `ReportingServiceImpl::FetchAllClientsFromStore`: asks the store to load
(the completion arrives later as `OnClientsLoaded`). -/
def FetchAllClientsFromStore (st : ServiceState) : ServiceState :=
  { st with effects := st.effects ++ [.loadReportingClients] }

/-- `ReportingServiceImpl::FetchAllClientsFromStoreIfNecessary`. -/
def FetchAllClientsFromStoreIfNecessary (cfg : Config) (st : ServiceState) : ServiceState :=
  if !cfg.IsClientDataPersisted || st.started_loading_from_store then st
  else FetchAllClientsFromStore { st with started_loading_from_store := true }

/-- `ReportingServiceImpl::DoOrBacklogTask`. -/
def DoOrBacklogTask (cfg : Config) (t : Task) (st : ServiceState) : ServiceState :=
  if st.shut_down then st
  else
    let st1 := FetchAllClientsFromStoreIfNecessary cfg st
    if !st1.initialized then { st1 with task_backlog := st1.task_backlog ++ [t] }
    else runTask t st1

/-- `ReportingServiceImpl::QueueReport`.  `now` is the value
`context_->tick_clock().NowTicks()` reads at this call. -/
def QueueReport (cfg : Config) (url : GURL) (reporting_source : Option UnguessableToken)
    (network_isolation_key : NetworkIsolationKey) (user_agent group type : String)
    (body : JsonValue) (depth : Nat) (now : Nat) (st : ServiceState) : ServiceState :=
  if !cfg.CanQueueReport (Origin.create url) then st
  else
    let sanitized_url := url.GetAsReferrer
    if !sanitized_url.is_valid then st
    else
      let queued_ticks := now
      DoOrBacklogTask cfg
        (.doQueueReport reporting_source (FixupNetworkIsolationKey cfg network_isolation_key)
          sanitized_url user_agent group type body depth queued_ticks) st

/-- `ReportingServiceImpl::ProcessReportToHeader`: size-limits the raw
header, wraps it in brackets, JSON-parses it with `kMaxJsonDepth`, then
gates. -/
def ProcessReportToHeader (cfg : Config) (url : GURL)
    (network_isolation_key : NetworkIsolationKey) (header_string : List Char)
    (st : ServiceState) : ServiceState :=
  if kMaxJsonSize < header_string.length then st
  else
    match ReadDeprecated ('[' :: (header_string ++ [']'])) kMaxJsonDepth with
    | none => st
    | some header_value =>
      DoOrBacklogTask cfg
        (.doProcessReportToHeader (FixupNetworkIsolationKey cfg network_isolation_key)
          url header_value) st

/-- `ReportingServiceImpl::SetDocumentReportingEndpoints`.  The check
`DCHECK(!reporting_source.is_empty())` is a debug-build assertion and
performs nothing in release builds, so it is not a branch of the model. -/
def SetDocumentReportingEndpoints (cfg : Config) (reporting_source : UnguessableToken)
    (origin : Origin) (isolation_info : IsolationInfo)
    (endpoints : List (String × String)) (st : ServiceState) : ServiceState :=
  DoOrBacklogTask cfg
    (.doSetDocumentReportingEndpoints reporting_source isolation_info
      (FixupNetworkIsolationKey cfg isolation_info.network_isolation_key) origin endpoints) st

/-- `ReportingServiceImpl::SendReportsAndRemoveSource`: calls the delivery
agent and the cache directly, with no `shut_down_` check and no gating. -/
def SendReportsAndRemoveSource (reporting_source : UnguessableToken)
    (st : ServiceState) : ServiceState :=
  { st with effects := st.effects ++
      [.sendReportsForSource reporting_source, .setExpiredSource reporting_source] }

/-- `ReportingServiceImpl::RemoveBrowsingData`. -/
def RemoveBrowsingData (cfg : Config) (data_type_mask : Nat)
    (origin_filter : GURL → Bool) (st : ServiceState) : ServiceState :=
  DoOrBacklogTask cfg (.doRemoveBrowsingData data_type_mask origin_filter) st

/-- `ReportingServiceImpl::RemoveAllBrowsingData`. -/
def RemoveAllBrowsingData (cfg : Config) (data_type_mask : Nat)
    (st : ServiceState) : ServiceState :=
  DoOrBacklogTask cfg (.doRemoveAllBrowsingData data_type_mask) st

/-- `ReportingServiceImpl::OnShutdown`: sets `shut_down_` and propagates to
the context. -/
def OnShutdown (st : ServiceState) : ServiceState :=
  { st with shut_down := true, effects := st.effects ++ [.contextOnShutdown] }

/-- `ReportingServiceImpl::ExecuteBacklog`: returns early when shut down;
otherwise runs every backlogged task in order and clears the backlog. -/
def ExecuteBacklog (st : ServiceState) : ServiceState :=
  if st.shut_down then st
  else { st.task_backlog.foldl (fun s t => runTask t s) st with task_backlog := [] }

/-- `ReportingServiceImpl::OnClientsLoaded`: the store-load completion sets
`initialized_`, installs the loaded clients into the cache in one call, and
executes the backlog. -/
def OnClientsLoaded (loaded_endpoints : List ReportingEndpoint)
    (loaded_endpoint_groups : List CachedReportingEndpointGroup)
    (st : ServiceState) : ServiceState :=
  ExecuteBacklog
    { st with
      initialized := true
      effects := st.effects ++
        [.addClientsLoadedFromStore loaded_endpoints loaded_endpoint_groups] }

/-- One event at the facade: a public mutating call, the shutdown
notification or the asynchronous store-load completion. -/
inductive Action where
  | queueReport (url : GURL) (reporting_source : Option UnguessableToken)
      (network_isolation_key : NetworkIsolationKey) (user_agent group type : String)
      (body : JsonValue) (depth : Nat) (now : Nat)
  | processReportToHeader (url : GURL) (network_isolation_key : NetworkIsolationKey)
      (header_string : List Char)
  | setDocumentReportingEndpoints (reporting_source : UnguessableToken)
      (origin : Origin) (isolation_info : IsolationInfo)
      (endpoints : List (String × String))
  | sendReportsAndRemoveSource (reporting_source : UnguessableToken)
  | removeBrowsingData (data_type_mask : Nat) (origin_filter : GURL → Bool)
  | removeAllBrowsingData (data_type_mask : Nat)
  | onShutdown
  | onClientsLoaded (loaded_endpoints : List ReportingEndpoint)
      (loaded_endpoint_groups : List CachedReportingEndpointGroup)

/-- Interpret one event on the service state. -/
def step (cfg : Config) (a : Action) (st : ServiceState) : ServiceState :=
  match a with
  | .queueReport url rs nik ua group type body depth now =>
    QueueReport cfg url rs nik ua group type body depth now st
  | .processReportToHeader url nik header_string =>
    ProcessReportToHeader cfg url nik header_string st
  | .setDocumentReportingEndpoints rs origin isolation_info endpoints =>
    SetDocumentReportingEndpoints cfg rs origin isolation_info endpoints st
  | .sendReportsAndRemoveSource rs => SendReportsAndRemoveSource rs st
  | .removeBrowsingData mask origin_filter => RemoveBrowsingData cfg mask origin_filter st
  | .removeAllBrowsingData mask => RemoveAllBrowsingData cfg mask st
  | .onShutdown => OnShutdown st
  | .onClientsLoaded eps groups => OnClientsLoaded eps groups st

/-- Interpret a sequence of events in order. -/
def run (cfg : Config) (acts : List Action) (st : ServiceState) : ServiceState :=
  acts.foldl (fun s a => step cfg a s) st

/-- A service configuration with no persistent store, an allow-all delegate
and the partition-key feature enabled. -/
def cfg0 : Config :=
  { IsClientDataPersisted := false
    CanQueueReport := fun _ => true
    respect_network_isolation_key := true }

/-- A service configuration with a persistent store configured. -/
def cfgP : Config :=
  { IsClientDataPersisted := true
    CanQueueReport := fun _ => true
    respect_network_isolation_key := true }

/-- The URL `https://a.test/x` of the spec scenario S1. -/
def urlAX : GURL :=
  { is_valid := true, scheme := "https", username := "", password := ""
    host := "a.test", port := "443", path := "/x", query := "", ref := "" }

/-- The origin `https://a.test:443`. -/
def origin0 : Origin := ⟨"https", "a.test", "443"⟩

/-- The empty (all-zero) reporting source token. -/
def tok0 : UnguessableToken := ⟨0⟩

/-- A non-empty reporting source token. -/
def tok1 : UnguessableToken := ⟨1⟩

/-- An isolation info carrying the empty network isolation key. -/
def ii0 : IsolationInfo := ⟨empty_nik⟩

/-- A well-formed header string of JSON nesting depth 4. -/
def hdr4 : List Char := ['[', '[', '[', '[', '0', ']', ']', ']', ']']

/-- A well-formed header string of JSON nesting depth 5. -/
def hdr5 : List Char := ['[', '[', '[', '[', '[', '0', ']', ']', ']', ']', ']']

/-- Five nested singleton lists around the number 0: the parse of `hdr5`,
and also of `hdr4` once the service has wrapped it in brackets. -/
def nested5 : JsonValue := .list [.list [.list [.list [.list [.num 0]]]]]

example : ReadDeprecated "[[[[[0]]]]]".toList 5 =
    some (.list [.list [.list [.list [.list [.num 0]]]]]) := by rfl

example : ReadDeprecated "[[[[[0]]]]]".toList 4 = none := by rfl


/-! ### Helper lemmas -/

theorem runTask_eq (t : Task) (st : ServiceState) :
    runTask t st = { st with effects := st.effects ++ [taskEffect t] } := by
  cases t <;> rfl

theorem foldl_runTask (ts : List Task) (st : ServiceState) :
    ts.foldl (fun s t => runTask t s) st =
      { st with effects := st.effects ++ ts.map taskEffect } := by
  induction ts generalizing st with
  | nil => simp
  | cons t ts ih =>
    rw [List.foldl_cons, ih, runTask_eq]
    simp [List.append_assoc]

theorem fetch_shut_down (cfg : Config) (st : ServiceState) :
    (FetchAllClientsFromStoreIfNecessary cfg st).shut_down = st.shut_down := by
  unfold FetchAllClientsFromStoreIfNecessary FetchAllClientsFromStore
  split <;> rfl

theorem fetch_initialized (cfg : Config) (st : ServiceState) :
    (FetchAllClientsFromStoreIfNecessary cfg st).initialized = st.initialized := by
  unfold FetchAllClientsFromStoreIfNecessary FetchAllClientsFromStore
  split <;> rfl

theorem fetch_task_backlog (cfg : Config) (st : ServiceState) :
    (FetchAllClientsFromStoreIfNecessary cfg st).task_backlog = st.task_backlog := by
  unfold FetchAllClientsFromStoreIfNecessary FetchAllClientsFromStore
  split <;> rfl

theorem ExecuteBacklog_eq (st : ServiceState) :
    ExecuteBacklog st =
      if st.shut_down then st
      else { st with task_backlog := [],
                     effects := st.effects ++ st.task_backlog.map taskEffect } := by
  cases hsd : st.shut_down
  · simp [ExecuteBacklog, hsd, foldl_runTask]
  · simp [ExecuteBacklog, hsd]

theorem OnClientsLoaded_eq (eps : List ReportingEndpoint)
    (groups : List CachedReportingEndpointGroup) (st : ServiceState) :
    OnClientsLoaded eps groups st =
      if st.shut_down then
        { st with initialized := true,
                  effects := st.effects ++ [.addClientsLoadedFromStore eps groups] }
      else
        { st with initialized := true, task_backlog := [],
                  effects := (st.effects ++ [.addClientsLoadedFromStore eps groups])
                             ++ st.task_backlog.map taskEffect } := by
  cases hsd : st.shut_down
  · simp [OnClientsLoaded, ExecuteBacklog_eq, hsd]
  · simp [OnClientsLoaded, ExecuteBacklog_eq, hsd]

theorem DoOrBacklogTask_shut (cfg : Config) (t : Task) (st : ServiceState)
    (h : st.shut_down = true) : DoOrBacklogTask cfg t st = st := by
  simp [DoOrBacklogTask, h]

theorem QueueReport_shut (cfg : Config) (url : GURL)
    (rs : Option UnguessableToken) (nik : NetworkIsolationKey)
    (ua group type : String) (body : JsonValue) (depth now : Nat)
    (st : ServiceState) (h : st.shut_down = true) :
    QueueReport cfg url rs nik ua group type body depth now st = st := by
  unfold QueueReport
  dsimp only
  split
  · rfl
  · split
    · rfl
    · exact DoOrBacklogTask_shut cfg _ st h

theorem ProcessReportToHeader_shut (cfg : Config) (url : GURL)
    (nik : NetworkIsolationKey) (header_string : List Char)
    (st : ServiceState) (h : st.shut_down = true) :
    ProcessReportToHeader cfg url nik header_string st = st := by
  unfold ProcessReportToHeader
  split
  · rfl
  · split
    · rfl
    · exact DoOrBacklogTask_shut cfg _ st h

theorem SetDocumentReportingEndpoints_shut (cfg : Config)
    (rs : UnguessableToken) (origin : Origin) (isolation_info : IsolationInfo)
    (endpoints : List (String × String)) (st : ServiceState)
    (h : st.shut_down = true) :
    SetDocumentReportingEndpoints cfg rs origin isolation_info endpoints st = st :=
  DoOrBacklogTask_shut cfg _ st h

theorem RemoveBrowsingData_shut (cfg : Config) (mask : Nat)
    (origin_filter : GURL → Bool) (st : ServiceState) (h : st.shut_down = true) :
    RemoveBrowsingData cfg mask origin_filter st = st :=
  DoOrBacklogTask_shut cfg _ st h

theorem RemoveAllBrowsingData_shut (cfg : Config) (mask : Nat)
    (st : ServiceState) (h : st.shut_down = true) :
    RemoveAllBrowsingData cfg mask st = st :=
  DoOrBacklogTask_shut cfg _ st h

theorem step_shut (cfg : Config) (a : Action) (st : ServiceState)
    (h : st.shut_down = true) :
    (step cfg a st).shut_down = true ∧
    ∀ e ∈ (step cfg a st).effects, e ∈ st.effects ∨ isTaskEffect e = false := by
  cases a with
  | queueReport url rs nik ua group type body depth now =>
    rw [step, QueueReport_shut cfg url rs nik ua group type body depth now st h]
    exact ⟨h, fun e he => .inl he⟩
  | processReportToHeader url nik header_string =>
    rw [step, ProcessReportToHeader_shut cfg url nik header_string st h]
    exact ⟨h, fun e he => .inl he⟩
  | setDocumentReportingEndpoints rs origin isolation_info endpoints =>
    rw [step, SetDocumentReportingEndpoints_shut cfg rs origin isolation_info endpoints st h]
    exact ⟨h, fun e he => .inl he⟩
  | sendReportsAndRemoveSource rs =>
    refine ⟨h, fun e he => ?_⟩
    simp only [step, SendReportsAndRemoveSource, List.mem_append,
      List.mem_cons, List.not_mem_nil, or_false] at he
    rcases he with he | he | he
    · exact .inl he
    · exact .inr (by rw [he]; rfl)
    · exact .inr (by rw [he]; rfl)
  | removeBrowsingData mask origin_filter =>
    rw [step, RemoveBrowsingData_shut cfg mask origin_filter st h]
    exact ⟨h, fun e he => .inl he⟩
  | removeAllBrowsingData mask =>
    rw [step, RemoveAllBrowsingData_shut cfg mask st h]
    exact ⟨h, fun e he => .inl he⟩
  | onShutdown =>
    refine ⟨rfl, fun e he => ?_⟩
    simp only [step, OnShutdown, List.mem_append, List.mem_singleton] at he
    rcases he with he | he
    · exact .inl he
    · exact .inr (by rw [he]; rfl)
  | onClientsLoaded eps groups =>
    rw [step, OnClientsLoaded_eq, if_pos h]
    refine ⟨h, fun e he => ?_⟩
    simp only [List.mem_append, List.mem_singleton] at he
    rcases he with he | he
    · exact .inl he
    · exact .inr (by rw [he]; rfl)

theorem run_shut (cfg : Config) (acts : List Action) (st : ServiceState)
    (h : st.shut_down = true) :
    (run cfg acts st).shut_down = true ∧
    ∀ e ∈ (run cfg acts st).effects, e ∈ st.effects ∨ isTaskEffect e = false := by
  induction acts generalizing st with
  | nil => exact ⟨h, fun e he => .inl he⟩
  | cons a acts ih =>
    have h1 := step_shut cfg a st h
    have h2 := ih (step cfg a st) h1.1
    refine ⟨h2.1, fun e he => ?_⟩
    rcases h2.2 e he with he | hne
    · exact h1.2 e he
    · exact .inr hne

theorem DoOrBacklogTask_new_effects (cfg : Config) (t : Task) (st : ServiceState) :
    ∀ e ∈ (DoOrBacklogTask cfg t st).effects,
      e ∈ st.effects ∨ e = Effect.loadReportingClients ∨ e = taskEffect t := by
  have hf : ∀ e ∈ (FetchAllClientsFromStoreIfNecessary cfg st).effects,
      e ∈ st.effects ∨ e = Effect.loadReportingClients := by
    unfold FetchAllClientsFromStoreIfNecessary FetchAllClientsFromStore
    split
    · exact fun e he => .inl he
    · intro e he
      simp only [List.mem_append, List.mem_singleton] at he
      exact he
  simp only [DoOrBacklogTask]
  split
  · exact fun e he => .inl he
  · split
    · intro e he
      rcases hf e he with h | h
      · exact .inl h
      · exact .inr (.inl h)
    · intro e he
      rw [runTask_eq] at he
      simp only [List.mem_append, List.mem_singleton] at he
      rcases he with he | he
      · rcases hf e he with h | h
        · exact .inl h
        · exact .inr (.inl h)
      · exact .inr (.inr he)

theorem DoOrBacklogTask_new_tasks (cfg : Config) (t : Task) (st : ServiceState) :
    ∀ x ∈ (DoOrBacklogTask cfg t st).task_backlog,
      x ∈ st.task_backlog ∨ x = t := by
  simp only [DoOrBacklogTask]
  split
  · exact fun x hx => .inl hx
  · split
    · intro x hx
      simp only [List.mem_append, List.mem_singleton, fetch_task_backlog] at hx
      exact hx
    · intro x hx
      rw [runTask_eq] at hx
      simp only [fetch_task_backlog] at hx
      exact .inl hx

theorem skipWs_replicate (n : Nat) (rest : List Char) :
    skipWs (List.replicate n ' ' ++ rest) = skipWs rest := by
  induction n with
  | zero => simp
  | succ k ih =>
    rw [List.replicate_succ, List.cons_append, skipWs]
    simpa [isJsonWs] using ih

theorem parseValue_bracket_spaces (f n d : Nat) (hd : 1 ≤ d) :
    parseValue (f + 2) 0 d ('[' :: (List.replicate n ' ' ++ [']'])) =
      some (JsonValue.list [], ([] : List Char)) := by
  have key : parseValue (f + 2) 0 d ('[' :: (List.replicate n ' ' ++ [']'])) =
      if d < 0 + 1 then none
      else parseListBody (f + 1) (0 + 1) d (List.replicate n ' ' ++ [']']) := rfl
  rw [key, if_neg (by omega)]
  have h1 : skipWs (List.replicate n ' ' ++ [']']) = [']'] := by
    rw [skipWs_replicate]; rfl
  simp only [parseListBody]
  rw [h1]
  rfl

theorem ReadDeprecated_wrap_spaces (n : Nat) :
    ReadDeprecated ('[' :: (List.replicate n ' ' ++ [']'])) kMaxJsonDepth =
      some (JsonValue.list []) := by
  unfold ReadDeprecated
  have hl : ('[' :: (List.replicate n ' ' ++ [']'])).length = n + 2 := by simp
  rw [hl]
  rw [parseValue_bracket_spaces (2 * (n + 2)) n kMaxJsonDepth (by norm_num [kMaxJsonDepth])]
  rfl

/-- An invalid URL (also invalid after referrer sanitization). -/
def urlBad : GURL :=
  { is_valid := false, scheme := "", username := "", password := ""
    host := "", port := "", path := "", query := "", ref := "" }

/-- A configuration with the partition-key feature disabled
(`respect_network_isolation_key_ = false`). -/
def cfgN : Config :=
  { IsClientDataPersisted := false
    CanQueueReport := fun _ => true
    respect_network_isolation_key := false }

/-- A non-empty network isolation key. -/
def nikA : NetworkIsolationKey := ⟨some ("https://a.test", "https://b.test")⟩

/-! ### Claim theorems -/

/-- Claim C1: the gating wrapper `DoOrBacklogTask` drops the operation when
`shut_down` is set; otherwise, when a persistent store is configured and
`started_loading_from_store` is false, the store load is started and the
flag becomes true (and when no store is configured or loading already
started, nothing happens); then, when `initialized` is false the operation
is appended to the backlog with no other effect, and when `initialized` is
true the operation executes synchronously. -/
theorem gating_wrapper_spec (cfg : Config) (t : Task) (st : ServiceState) :
    (st.shut_down = true → DoOrBacklogTask cfg t st = st) ∧
    (st.shut_down = false →
      ((cfg.IsClientDataPersisted = true ∧ st.started_loading_from_store = false) →
        (FetchAllClientsFromStoreIfNecessary cfg st).started_loading_from_store = true ∧
        (FetchAllClientsFromStoreIfNecessary cfg st).effects =
          st.effects ++ [Effect.loadReportingClients]) ∧
      ((cfg.IsClientDataPersisted = false ∨ st.started_loading_from_store = true) →
        FetchAllClientsFromStoreIfNecessary cfg st = st) ∧
      (st.initialized = false →
        DoOrBacklogTask cfg t st =
          { FetchAllClientsFromStoreIfNecessary cfg st with
            task_backlog :=
              (FetchAllClientsFromStoreIfNecessary cfg st).task_backlog ++ [t] }) ∧
      (st.initialized = true →
        DoOrBacklogTask cfg t st = runTask t (FetchAllClientsFromStoreIfNecessary cfg st))) := by
  refine ⟨fun h => DoOrBacklogTask_shut cfg t st h, fun hsd => ⟨?_, ?_, ?_, ?_⟩⟩
  · rintro ⟨hp, hs⟩
    simp [FetchAllClientsFromStoreIfNecessary, FetchAllClientsFromStore, hp, hs]
  · intro hcase
    rcases hcase with hp | hs
    · simp [FetchAllClientsFromStoreIfNecessary, hp]
    · simp [FetchAllClientsFromStoreIfNecessary, hs]
  · intro hinit
    simp [DoOrBacklogTask, hsd, fetch_initialized, hinit]
  · intro hinit
    simp [DoOrBacklogTask, hsd, fetch_initialized, hinit]

/-- Witness for C1 at a concrete persisted configuration and fresh state:
the first gated call starts the store load and is backlogged. -/
theorem gating_wrapper_spec_witness :
    (FetchAllClientsFromStoreIfNecessary cfgP (create cfgP)).started_loading_from_store = true ∧
    DoOrBacklogTask cfgP (Task.doRemoveAllBrowsingData 0) (create cfgP) =
      { FetchAllClientsFromStoreIfNecessary cfgP (create cfgP) with
        task_backlog :=
          (FetchAllClientsFromStoreIfNecessary cfgP (create cfgP)).task_backlog ++
            [Task.doRemoveAllBrowsingData 0] } :=
  ⟨(((gating_wrapper_spec cfgP (Task.doRemoveAllBrowsingData 0) (create cfgP)).2 rfl).1
      ⟨rfl, rfl⟩).1,
   ((gating_wrapper_spec cfgP (Task.doRemoveAllBrowsingData 0) (create cfgP)).2 rfl).2.2.1 rfl⟩

/-- Claim C3 counterexample: after `OnShutdown`, `SendReportsAndRemoveSource`
is not a no-op — it still calls the delivery agent and the cache, so the
state reachable through the service changes. -/
theorem send_reports_after_shutdown_mutates :
    (SendReportsAndRemoveSource tok1 (OnShutdown (create cfg0))).effects =
      [Effect.contextOnShutdown, Effect.sendReportsForSource tok1,
       Effect.setExpiredSource tok1] ∧
    (OnShutdown (create cfg0)).effects = [Effect.contextOnShutdown] ∧
    SendReportsAndRemoveSource tok1 (OnShutdown (create cfg0)) ≠
      OnShutdown (create cfg0) := by
  refine ⟨rfl, rfl, ?_⟩
  intro h
  have h2 := congrArg (fun s => s.effects.length) h
  simp [SendReportsAndRemoveSource, OnShutdown, create] at h2

/-- Claim C3 (amended): after `on_shutdown()`, every gated public mutating
operation (`queue_report`, `process_report_to_header`,
`set_document_reporting_endpoints`, `remove_browsing_data`,
`remove_all_browsing_data`) is a no-op, but `send_reports_and_remove_source`
is not gated: it still calls `SendReportsForSource` on the delivery agent
and `SetExpiredSource` on the cache. -/
theorem shutdown_gated_ops_noop (cfg : Config) (url : GURL)
    (rs : Option UnguessableToken) (nik : NetworkIsolationKey)
    (ua group type : String) (body : JsonValue) (depth now : Nat)
    (header_string : List Char) (src : UnguessableToken) (origin : Origin)
    (isolation_info : IsolationInfo) (endpoints : List (String × String))
    (mask : Nat) (origin_filter : GURL → Bool) (st : ServiceState)
    (h : st.shut_down = true) :
    QueueReport cfg url rs nik ua group type body depth now st = st ∧
    ProcessReportToHeader cfg url nik header_string st = st ∧
    SetDocumentReportingEndpoints cfg src origin isolation_info endpoints st = st ∧
    RemoveBrowsingData cfg mask origin_filter st = st ∧
    RemoveAllBrowsingData cfg mask st = st ∧
    SendReportsAndRemoveSource src st =
      { st with effects := st.effects ++
          [Effect.sendReportsForSource src, Effect.setExpiredSource src] } :=
  ⟨QueueReport_shut cfg url rs nik ua group type body depth now st h,
   ProcessReportToHeader_shut cfg url nik header_string st h,
   SetDocumentReportingEndpoints_shut cfg src origin isolation_info endpoints st h,
   RemoveBrowsingData_shut cfg mask origin_filter st h,
   RemoveAllBrowsingData_shut cfg mask st h,
   rfl⟩

/-- Witness for the amended C3 at a concrete shut-down state. -/
theorem shutdown_gated_ops_noop_witness :
    QueueReport cfg0 urlAX none empty_nik "ua" "g" "t" JsonValue.null 0 0
        (OnShutdown (create cfg0)) = OnShutdown (create cfg0) ∧
    SendReportsAndRemoveSource tok1 (OnShutdown (create cfg0)) =
      { OnShutdown (create cfg0) with
        effects := (OnShutdown (create cfg0)).effects ++
          [Effect.sendReportsForSource tok1, Effect.setExpiredSource tok1] } := by
  have h := shutdown_gated_ops_noop cfg0 urlAX none empty_nik "ua" "g" "t"
    JsonValue.null 0 0 [] tok1 origin0 ii0 [] 0 (fun _ => true)
    (OnShutdown (create cfg0)) rfl
  exact ⟨h.1, h.2.2.2.2.2⟩

/-- Claim C5: `QueueReport` drops the report silently — the state is
unchanged, so nothing is added, backlogged or reported back — whenever the
delegate denies `CanQueueReport` for the URL origin or the URL is not valid
after referrer sanitization. -/
theorem queue_report_drops_denied_or_invalid (cfg : Config) (url : GURL)
    (rs : Option UnguessableToken) (nik : NetworkIsolationKey)
    (ua group type : String) (body : JsonValue) (depth now : Nat)
    (st : ServiceState)
    (h : cfg.CanQueueReport (Origin.create url) = false ∨
         (GURL.GetAsReferrer url).is_valid = false) :
    QueueReport cfg url rs nik ua group type body depth now st = st := by
  rcases h with h | h
  · simp [QueueReport, h]
  · unfold QueueReport
    dsimp only
    split
    · rfl
    · simp [h]

/-- Witness for C5: an invalid URL is dropped with no state change. -/
theorem queue_report_drops_denied_or_invalid_witness :
    QueueReport cfg0 urlBad none empty_nik "ua" "g" "t" JsonValue.null 0 0
      (create cfg0) = create cfg0 :=
  queue_report_drops_denied_or_invalid cfg0 urlBad none empty_nik "ua" "g" "t"
    JsonValue.null 0 0 (create cfg0) (Or.inr rfl)

/-- Claim C4: when `respect_network_isolation_key_` is false, the fixup
substitutes the empty partition key, so `QueueReport` and
`ProcessReportToHeader` are insensitive to the inbound partition key, and
`SetDocumentReportingEndpoints` hands the empty key to its task; hence two
calls differing only in the inbound partition key pass identical partition
keys to the cache. -/
theorem fixup_collapses_partition_keys (cfg : Config) (url : GURL)
    (rs : Option UnguessableToken) (nik nik1 nik2 : NetworkIsolationKey)
    (ua group type : String) (body : JsonValue) (depth now : Nat)
    (header_string : List Char) (src : UnguessableToken) (origin : Origin)
    (isolation_info : IsolationInfo) (endpoints : List (String × String))
    (st : ServiceState) (h : cfg.respect_network_isolation_key = false) :
    FixupNetworkIsolationKey cfg nik = empty_nik ∧
    QueueReport cfg url rs nik1 ua group type body depth now st =
      QueueReport cfg url rs nik2 ua group type body depth now st ∧
    ProcessReportToHeader cfg url nik1 header_string st =
      ProcessReportToHeader cfg url nik2 header_string st ∧
    SetDocumentReportingEndpoints cfg src origin isolation_info endpoints st =
      DoOrBacklogTask cfg
        (Task.doSetDocumentReportingEndpoints src isolation_info empty_nik
          origin endpoints) st := by
  have hfix : ∀ k, FixupNetworkIsolationKey cfg k = empty_nik := fun k => by
    simp [FixupNetworkIsolationKey, h]
  refine ⟨hfix nik, ?_, ?_, ?_⟩
  · unfold QueueReport
    rw [hfix nik1, hfix nik2]
  · unfold ProcessReportToHeader
    rw [hfix nik1, hfix nik2]
  · unfold SetDocumentReportingEndpoints
    rw [hfix isolation_info.network_isolation_key]

/-- Witness for C4 at a concrete disabled-feature configuration: a report
queued under a non-empty partition key lands exactly as one queued under
the empty key. -/
theorem fixup_collapses_partition_keys_witness :
    FixupNetworkIsolationKey cfgN nikA = empty_nik ∧
    QueueReport cfgN urlAX none nikA "ua" "g" "t" JsonValue.null 0 0 (create cfgN) =
      QueueReport cfgN urlAX none empty_nik "ua" "g" "t" JsonValue.null 0 0
        (create cfgN) := by
  have h := fixup_collapses_partition_keys cfgN urlAX none nikA nikA empty_nik
    "ua" "g" "t" JsonValue.null 0 0 [] tok1 origin0 ii0 [] (create cfgN) rfl
  exact ⟨h.1, h.2.1⟩

/-- Claim C9 counterexample: called with the empty reporting source on an
uninitialized persisted service, `SetDocumentReportingEndpoints` does create
a backlog entry — the empty source is not rejected by the service. -/
theorem empty_source_backlogged :
    tok0.is_empty = true ∧
    (SetDocumentReportingEndpoints cfgP tok0 origin0 ii0
        [("default", "https://r.test/")] (create cfgP)).task_backlog =
      [Task.doSetDocumentReportingEndpoints tok0 ii0 empty_nik origin0
        [("default", "https://r.test/")]] :=
  ⟨rfl, rfl⟩

/-- Claim C9 (amended): a non-empty reporting source is a precondition
asserted only by a debug-build `DCHECK`; the operation itself does not
reject an empty source: the call goes through the normal gating wrapper,
and on an uninitialized, not-shut-down service with a persistent store it
appends a backlog entry carrying the empty source. -/
theorem empty_source_not_rejected (cfg : Config) (origin : Origin)
    (isolation_info : IsolationInfo) (endpoints : List (String × String))
    (st : ServiceState) (h1 : cfg.IsClientDataPersisted = true)
    (h2 : st.shut_down = false) (h3 : st.initialized = false) :
    tok0.is_empty = true ∧
    (SetDocumentReportingEndpoints cfg tok0 origin isolation_info endpoints
        st).task_backlog =
      st.task_backlog ++ [Task.doSetDocumentReportingEndpoints tok0 isolation_info
        (FixupNetworkIsolationKey cfg isolation_info.network_isolation_key)
        origin endpoints] := by
  refine ⟨rfl, ?_⟩
  unfold SetDocumentReportingEndpoints
  simp [DoOrBacklogTask, h2, fetch_initialized, h3, fetch_task_backlog]

/-- Witness for the amended C9 at a concrete uninitialized service. -/
theorem empty_source_not_rejected_witness :
    (SetDocumentReportingEndpoints cfgP tok0 origin0 ii0 [] (create cfgP)).task_backlog =
      (create cfgP).task_backlog ++ [Task.doSetDocumentReportingEndpoints tok0 ii0
        (FixupNetworkIsolationKey cfgP ii0.network_isolation_key) origin0 []] :=
  (empty_source_not_rejected cfgP origin0 ii0 [] (create cfgP) rfl rfl rfl).2

/-- Claim C6 counterexample: queueing `https://a.test/x` on an initialized
service stores a report whose URL still has path `/x` — the sanitized URL is
not origin-only, contradicting the claimed `https://a.test/`. -/
theorem queue_report_url_keeps_path :
    (QueueReport cfg0 urlAX none empty_nik "ua" "g" "t" JsonValue.null 0 0
        (create cfg0)).effects =
      [Effect.addReport none empty_nik urlAX "ua" "g" "t" JsonValue.null 0 0 0] ∧
    urlAX.path = "/x" ∧ urlAX.path ≠ "/" :=
  ⟨rfl, rfl, by decide⟩

/-- Claim C6 (amended): for every report accepted by `QueueReport`, the
stored URL is the referrer-sanitized URL: userinfo and fragment are
stripped, while scheme, host, port (and path and query) are preserved.
Every effect or backlog entry the call adds is either the store-load start
or carries exactly that sanitized URL. -/
theorem queue_report_stores_sanitized_url (cfg : Config) (url : GURL)
    (rs : Option UnguessableToken) (nik : NetworkIsolationKey)
    (ua group type : String) (body : JsonValue) (depth now : Nat)
    (st : ServiceState) :
    (∀ e, e ∈ (QueueReport cfg url rs nik ua group type body depth now st).effects →
      e ∉ st.effects →
      e = Effect.loadReportingClients ∨
      e = Effect.addReport rs (FixupNetworkIsolationKey cfg nik) url.GetAsReferrer
            ua group type body depth now 0) ∧
    (∀ t, t ∈ (QueueReport cfg url rs nik ua group type body depth now st).task_backlog →
      t ∉ st.task_backlog →
      t = Task.doQueueReport rs (FixupNetworkIsolationKey cfg nik) url.GetAsReferrer
            ua group type body depth now) ∧
    url.GetAsReferrer.username = "" ∧ url.GetAsReferrer.password = "" ∧
    url.GetAsReferrer.ref = "" ∧ url.GetAsReferrer.scheme = url.scheme ∧
    url.GetAsReferrer.host = url.host ∧ url.GetAsReferrer.port = url.port ∧
    url.GetAsReferrer.path = url.path := by
  refine ⟨?_, ?_, rfl, rfl, rfl, rfl, rfl, rfl, rfl⟩
  · intro e he hne
    unfold QueueReport at he
    dsimp only at he
    split at he
    · exact absurd he hne
    · split at he
      · exact absurd he hne
      · rcases DoOrBacklogTask_new_effects cfg _ st e he with h | h | h
        · exact absurd h hne
        · exact .inl h
        · exact .inr h
  · intro t ht htn
    unfold QueueReport at ht
    dsimp only at ht
    split at ht
    · exact absurd ht htn
    · split at ht
      · exact absurd ht htn
      · rcases DoOrBacklogTask_new_tasks cfg _ st t ht with h | h
        · exact absurd h htn
        · exact h

/-- Witness for the amended C6: the one effect added by a concrete accepted
report is the sanitized-URL `AddReport` call. -/
theorem queue_report_stores_sanitized_url_witness :
    Effect.addReport none empty_nik urlAX "ua" "g" "t" JsonValue.null 0 0 0 =
        Effect.loadReportingClients ∨
    Effect.addReport none empty_nik urlAX "ua" "g" "t" JsonValue.null 0 0 0 =
      Effect.addReport none (FixupNetworkIsolationKey cfg0 empty_nik)
        urlAX.GetAsReferrer "ua" "g" "t" JsonValue.null 0 0 0 :=
  (queue_report_stores_sanitized_url cfg0 urlAX none empty_nik "ua" "g" "t"
      JsonValue.null 0 0 (create cfg0)).1 _
    (show _ ∈ [Effect.addReport none empty_nik urlAX "ua" "g" "t" JsonValue.null 0 0 0]
      from List.mem_singleton.mpr rfl)
    (show _ ∉ ([] : List Effect) from List.not_mem_nil _)

/-- A concrete uninitialized service with one backlogged task and the store
load already started. -/
def stBacklogged : ServiceState :=
  DoOrBacklogTask cfgP (Task.doRemoveAllBrowsingData 7) (create cfgP)

/-- Claim C2: when the store load completes, `OnClientsLoaded` installs the
loaded endpoints and groups into the cache in a single call, sets
`initialized`, and runs the backlog in FIFO (ingress) order; when shutdown
happened during the load, the install still occurs but no backlogged
operation is ever executed — no future action can produce the cache
mutation of a backlogged task. -/
theorem on_clients_loaded_spec (cfg : Config) (eps : List ReportingEndpoint)
    (groups : List CachedReportingEndpointGroup) (st : ServiceState) :
    (OnClientsLoaded eps groups st).initialized = true ∧
    (st.shut_down = false →
      OnClientsLoaded eps groups st =
        { st with
          initialized := true
          task_backlog := []
          effects := (st.effects ++ [Effect.addClientsLoadedFromStore eps groups])
                     ++ st.task_backlog.map taskEffect }) ∧
    (st.shut_down = true →
      (OnClientsLoaded eps groups st).effects =
        st.effects ++ [Effect.addClientsLoadedFromStore eps groups] ∧
      ∀ (acts : List Action) (e : Effect),
        e ∈ (run cfg acts (OnClientsLoaded eps groups st)).effects →
        e ∈ st.effects ∨ isTaskEffect e = false) := by
  refine ⟨?_, ?_, ?_⟩
  · rw [OnClientsLoaded_eq]
    split <;> rfl
  · intro h
    rw [OnClientsLoaded_eq, if_neg (by simp [h])]
  · intro h
    rw [OnClientsLoaded_eq, if_pos h]
    refine ⟨rfl, ?_⟩
    intro acts e he
    have hs : ({ st with
        initialized := true
        effects := st.effects ++ [Effect.addClientsLoadedFromStore eps groups] } :
        ServiceState).shut_down = true := h
    rcases (run_shut cfg acts _ hs).2 e he with h1 | h1
    · simp only [List.mem_append, List.mem_singleton] at h1
      rcases h1 with h1 | h1
      · exact .inl h1
      · exact .inr (by rw [h1]; rfl)
    · exact .inr h1

/-- Witness for C2: a concrete load completion drains the one backlogged
task, and after shutdown the install effect is itself no task effect. -/
theorem on_clients_loaded_spec_witness :
    OnClientsLoaded [] [] stBacklogged =
      { stBacklogged with
        initialized := true
        task_backlog := []
        effects := (stBacklogged.effects ++ [Effect.addClientsLoadedFromStore [] []])
                   ++ stBacklogged.task_backlog.map taskEffect } ∧
    (Effect.addClientsLoadedFromStore [] [] ∈ (OnShutdown (create cfgP)).effects ∨
      isTaskEffect (Effect.addClientsLoadedFromStore [] []) = false) := by
  refine ⟨(on_clients_loaded_spec cfgP [] [] stBacklogged).2.1 rfl, ?_⟩
  refine ((on_clients_loaded_spec cfgP [] [] (OnShutdown (create cfgP))).2.2 rfl).2
    [] (Effect.addClientsLoadedFromStore [] []) ?_
  show Effect.addClientsLoadedFromStore [] [] ∈
    [Effect.contextOnShutdown, Effect.addClientsLoadedFromStore [] []]
  simp

/-- The state predicate of claim C10 on a service with no persistent store:
initialized from construction, loading never started, backlog never used,
no store load ever issued. -/
def NoStoreInvariant (st : ServiceState) : Prop :=
  st.initialized = true ∧ st.started_loading_from_store = false ∧
  st.task_backlog = [] ∧ Effect.loadReportingClients ∉ st.effects

theorem taskEffect_ne_load (t : Task) :
    taskEffect t ≠ Effect.loadReportingClients := by
  cases t <;> exact fun h => Effect.noConfusion h

theorem fetch_no_store (cfg : Config) (st : ServiceState)
    (h : cfg.IsClientDataPersisted = false) :
    FetchAllClientsFromStoreIfNecessary cfg st = st := by
  simp [FetchAllClientsFromStoreIfNecessary, h]

theorem DoOrBacklogTask_no_store (cfg : Config) (t : Task) (st : ServiceState)
    (h : cfg.IsClientDataPersisted = false) (h2 : st.shut_down = false)
    (h3 : st.initialized = true) :
    DoOrBacklogTask cfg t st = runTask t st := by
  simp [DoOrBacklogTask, h2, fetch_no_store cfg st h, h3]

theorem DoOrBacklogTask_no_store_inv (cfg : Config) (t : Task) (st : ServiceState)
    (h : cfg.IsClientDataPersisted = false) (hinv : NoStoreInvariant st) :
    NoStoreInvariant (DoOrBacklogTask cfg t st) := by
  by_cases hsd : st.shut_down = true
  · rw [DoOrBacklogTask_shut cfg t st hsd]
    exact hinv
  · rw [DoOrBacklogTask_no_store cfg t st h (by simpa using hsd) hinv.1, runTask_eq]
    refine ⟨hinv.1, hinv.2.1, hinv.2.2.1, ?_⟩
    intro hmem
    simp only [List.mem_append, List.mem_singleton] at hmem
    rcases hmem with hm | hm
    · exact hinv.2.2.2 hm
    · exact taskEffect_ne_load t hm.symm

theorem step_no_store_inv (cfg : Config) (a : Action) (st : ServiceState)
    (h : cfg.IsClientDataPersisted = false) (hinv : NoStoreInvariant st) :
    NoStoreInvariant (step cfg a st) := by
  cases a with
  | queueReport url rs nik ua group type body depth now =>
    show NoStoreInvariant (QueueReport cfg url rs nik ua group type body depth now st)
    unfold QueueReport
    dsimp only
    split
    · exact hinv
    · split
      · exact hinv
      · exact DoOrBacklogTask_no_store_inv cfg _ st h hinv
  | processReportToHeader url nik header_string =>
    show NoStoreInvariant (ProcessReportToHeader cfg url nik header_string st)
    unfold ProcessReportToHeader
    split
    · exact hinv
    · split
      · exact hinv
      · exact DoOrBacklogTask_no_store_inv cfg _ st h hinv
  | setDocumentReportingEndpoints rs origin isolation_info endpoints =>
    exact DoOrBacklogTask_no_store_inv cfg _ st h hinv
  | sendReportsAndRemoveSource rs =>
    refine ⟨hinv.1, hinv.2.1, hinv.2.2.1, ?_⟩
    intro hmem
    simp only [step, SendReportsAndRemoveSource, List.mem_append, List.mem_cons,
      List.not_mem_nil, or_false] at hmem
    rcases hmem with hm | hm | hm
    · exact hinv.2.2.2 hm
    · exact Effect.noConfusion hm
    · exact Effect.noConfusion hm
  | removeBrowsingData mask origin_filter =>
    exact DoOrBacklogTask_no_store_inv cfg _ st h hinv
  | removeAllBrowsingData mask =>
    exact DoOrBacklogTask_no_store_inv cfg _ st h hinv
  | onShutdown =>
    refine ⟨hinv.1, hinv.2.1, hinv.2.2.1, ?_⟩
    intro hmem
    simp only [step, OnShutdown, List.mem_append, List.mem_singleton] at hmem
    rcases hmem with hm | hm
    · exact hinv.2.2.2 hm
    · exact Effect.noConfusion hm
  | onClientsLoaded eps groups =>
    show NoStoreInvariant (OnClientsLoaded eps groups st)
    rw [OnClientsLoaded_eq]
    split
    · refine ⟨rfl, hinv.2.1, hinv.2.2.1, ?_⟩
      intro hmem
      simp only [List.mem_append, List.mem_singleton] at hmem
      rcases hmem with hm | hm
      · exact hinv.2.2.2 hm
      · exact Effect.noConfusion hm
    · refine ⟨rfl, hinv.2.1, rfl, ?_⟩
      intro hmem
      rw [hinv.2.2.1] at hmem
      simp only [List.map_nil, List.append_nil, List.mem_append,
        List.mem_singleton] at hmem
      rcases hmem with hm | hm
      · exact hinv.2.2.2 hm
      · exact Effect.noConfusion hm

theorem run_no_store_inv (cfg : Config) (acts : List Action) (st : ServiceState)
    (h : cfg.IsClientDataPersisted = false) (hinv : NoStoreInvariant st) :
    NoStoreInvariant (run cfg acts st) := by
  induction acts generalizing st with
  | nil => exact hinv
  | cons a acts ih => exact ih (step cfg a st) (step_no_store_inv cfg a st h hinv)

/-- Claim C10: constructed without a persistent store, the service is
initialized from construction; along every sequence of events the backlog
stays empty, loading never starts, no store load is issued, and (before
shutdown) every gated operation executes synchronously. -/
theorem no_store_synchronous (cfg : Config) (acts : List Action)
    (h : cfg.IsClientDataPersisted = false) :
    (create cfg).initialized = true ∧
    NoStoreInvariant (run cfg acts (create cfg)) ∧
    ((run cfg acts (create cfg)).shut_down = false →
      ∀ t, DoOrBacklogTask cfg t (run cfg acts (create cfg)) =
        runTask t (run cfg acts (create cfg))) := by
  have hinit : NoStoreInvariant (create cfg) :=
    ⟨by simp [create, h], rfl, rfl, by simp [create]⟩
  have hrun := run_no_store_inv cfg acts (create cfg) h hinit
  refine ⟨by simp [create, h], hrun, ?_⟩
  intro hsd t
  exact DoOrBacklogTask_no_store cfg t _ h hsd hrun.1

/-- Witness for C10 after one concrete removal action: the invariant holds
and a further gated task runs synchronously. -/
theorem no_store_synchronous_witness :
    NoStoreInvariant (run cfg0 [Action.removeAllBrowsingData 3] (create cfg0)) ∧
    DoOrBacklogTask cfg0 (Task.doRemoveAllBrowsingData 4)
        (run cfg0 [Action.removeAllBrowsingData 3] (create cfg0)) =
      runTask (Task.doRemoveAllBrowsingData 4)
        (run cfg0 [Action.removeAllBrowsingData 3] (create cfg0)) :=
  ⟨(no_store_synchronous cfg0 [Action.removeAllBrowsingData 3] rfl).2.1,
   (no_store_synchronous cfg0 [Action.removeAllBrowsingData 3] rfl).2.2 rfl
     (Task.doRemoveAllBrowsingData 4)⟩

/-- Claim C7: `ProcessReportToHeader` rejects, with no state change, any
header string of 16 KiB + 1 bytes, while a header of exactly 16384 bytes
passes the size gate: a concrete 16384-byte header is accepted and changes
the state. -/
theorem header_size_boundary (cfg : Config) (url : GURL)
    (nik : NetworkIsolationKey) (s : List Char) (st : ServiceState) :
    (s.length = kMaxJsonSize + 1 → ProcessReportToHeader cfg url nik s st = st) ∧
    (List.replicate kMaxJsonSize ' ').length = 16384 ∧
    ProcessReportToHeader cfg0 urlAX empty_nik (List.replicate kMaxJsonSize ' ')
        (create cfg0) =
      { create cfg0 with
        effects := [Effect.parseReportToHeader empty_nik urlAX (JsonValue.list [])] } ∧
    ({ create cfg0 with
        effects := [Effect.parseReportToHeader empty_nik urlAX (JsonValue.list [])] } :
      ServiceState) ≠ create cfg0 := by
  refine ⟨?_, by rw [List.length_replicate]; rfl, ?_, ?_⟩
  · intro hl
    unfold ProcessReportToHeader
    rw [if_pos (by rw [hl]; exact Nat.lt_succ_self _)]
  · unfold ProcessReportToHeader
    rw [if_neg (by rw [List.length_replicate]; exact lt_irrefl _),
      ReadDeprecated_wrap_spaces]
    rfl
  · intro hEq
    have h2 := congrArg (fun s => s.effects.length) hEq
    simp [create] at h2

/-- Witness for C7: a 16385-byte header is dropped with no state change. -/
theorem header_size_boundary_witness :
    ProcessReportToHeader cfg0 urlAX empty_nik
        (List.replicate (kMaxJsonSize + 1) ' ') (create cfg0) = create cfg0 :=
  (header_size_boundary cfg0 urlAX empty_nik (List.replicate (kMaxJsonSize + 1) ' ')
      (create cfg0)).1 (by rw [List.length_replicate])

/-- Claim C8 counterexample: `hdr5` is well-formed JSON of nesting depth
exactly 5 (it parses at maximum depth 5 and fails at 4), yet
`ProcessReportToHeader` silently drops it — the bracket wrap pushes it to
depth 6, beyond `kMaxJsonDepth` — refuting "a header of depth 5 is
accepted". -/
theorem header_depth_five_rejected :
    ReadDeprecated hdr5 kMaxJsonDepth = some nested5 ∧
    ReadDeprecated hdr5 4 = none ∧
    ProcessReportToHeader cfg0 urlAX empty_nik hdr5 (create cfg0) = create cfg0 :=
  ⟨rfl, rfl, rfl⟩

/-- Claim C8 (amended): `ProcessReportToHeader` wraps the header in
brackets before parsing, and the maximum nesting depth 5 applies to the
wrapped JSON; hence a header whose wrapped parse fails is dropped with no
state change, a header of nesting depth 4 is accepted, and one of depth 5
is rejected (the wrap consumes one nesting level). -/
theorem header_depth_boundary_wrapped (cfg : Config) (url : GURL)
    (nik : NetworkIsolationKey) (s : List Char) (st : ServiceState) :
    (¬ kMaxJsonSize < s.length →
      ReadDeprecated ('[' :: (s ++ [']'])) kMaxJsonDepth = none →
      ProcessReportToHeader cfg url nik s st = st) ∧
    ReadDeprecated ('[' :: (hdr4 ++ [']'])) kMaxJsonDepth = some nested5 ∧
    ProcessReportToHeader cfg0 urlAX empty_nik hdr4 (create cfg0) =
      { create cfg0 with
        effects := [Effect.parseReportToHeader empty_nik urlAX nested5] } ∧
    ReadDeprecated ('[' :: (hdr5 ++ [']'])) kMaxJsonDepth = none := by
  refine ⟨?_, rfl, rfl, rfl⟩
  intro h1 h2
  unfold ProcessReportToHeader
  rw [if_neg h1, h2]

/-- Witness for the amended C8: the depth-5 header is dropped through the
failing wrapped parse. -/
theorem header_depth_boundary_wrapped_witness :
    ProcessReportToHeader cfgP urlAX empty_nik hdr5 (create cfgP) = create cfgP :=
  (header_depth_boundary_wrapped cfgP urlAX empty_nik hdr5 (create cfgP)).1
    (by decide) rfl

end Reporting
